import Mathlib

/-!
Verification of the sax2_traits contract (src/lib.rs, src/sax2.rs, src/common.rs).

The crate is a collection of SAX2 trait definitions. The executable code it
contains is exactly the set of default method bodies: the `Attributes`
convenience lookups, the `ErrorHandler` channel defaults, the `EntityResolver`
default resolution, and the no-op `ContentHandler`/`DtdHandler` bodies. Those
are embedded here directly from the source. Components that the crate only
declares (the concrete attribute view, the configuration store and the parse
session driven through `XmlReader`) are modelled from the specification, and
every such definition is marked as modelled from the spec in its doc comment.
-/

set_option autoImplicit false
set_option linter.unusedVariables false

namespace Sax2

/-- A parse error as described by the `ParseError` trait (`Error + Locator`):
a message (the `Display` rendering used by the default handlers) together
with the location snapshot exposed by the `Locator` methods. -/
structure ParseError where
  message : String
  line_number : Option Nat
  column_number : Option Nat
  public_id : Option String
  system_id : Option String
deriving Repr, DecidableEq

/-- The observable outcome of invoking a handler method: a normal `Ok(())`
return, an `Err` return carrying a boxed error, or a Rust process panic
(which never returns to the caller). -/
inductive HandlerOutcome where
  | ok
  | err (message : String)
  | panicked (message : String)
deriving Repr, DecidableEq

/-- True exactly when the handler invocation returns to its caller
(either `Ok` or `Err`) instead of raising a process panic. -/
def HandlerOutcome.returns : HandlerOutcome → Bool
  | .panicked _ => false
  | .ok => true
  | .err _ => true

/-- The full effect of a handler invocation: the lines written to the
diagnostic sink (stderr) plus the outcome. -/
structure HandlerEffect where
  sink : List String
  outcome : HandlerOutcome
deriving Repr, DecidableEq

/-- Default body of `ErrorHandler::error` (sax2.rs:134-137, lib.rs:207-210):
prints the error to stderr and returns `Ok(())`. -/
def ErrorHandler.error (e : ParseError) : HandlerEffect :=
  { sink := ["error: " ++ e.message], outcome := HandlerOutcome.ok }

/-- Default body of `ErrorHandler::fatal_error` (sax2.rs:148-150,
lib.rs:221-223): raises a process panic with the formatted message and
never returns. -/
def ErrorHandler.fatal_error (e : ParseError) : HandlerEffect :=
  { sink := [], outcome := HandlerOutcome.panicked ("fatal error: " ++ e.message) }

/-- Default body of `ErrorHandler::warning` (sax2.rs:162-165,
lib.rs:235-238): prints the warning to stderr and returns `Ok(())`. -/
def ErrorHandler.warning (e : ParseError) : HandlerEffect :=
  { sink := ["warning: " ++ e.message], outcome := HandlerOutcome.ok }

/-- Default body of `EntityResolver::resolve_entity` (common.rs:194-200,
lib.rs:289-295): always `Ok(None)`, i.e. use default resolution. The byte
stream an override could substitute is modelled as a list of bytes. -/
def EntityResolver.resolve_entity (public_id : Option String) (system_id : String) :
    Except String (Option (List Nat)) :=
  Except.ok none

/-- An implementation of the `Attributes` trait of sax2.rs (lines 50-99):
one field per required method, with the sax2.rs signatures (`u64` indices
as `Nat`, `usize` length as `Nat`, `Option<String>` results). -/
structure Attributes where
  get_q_name_index : String → Option Nat
  get_ns_name_index : String → String → Option Nat
  get_length : Nat
  get_local_name : Nat → Option String
  get_q_name : Nat → Option String
  get_type : Nat → Option String
  get_uri : Nat → Option String
  get_value : Nat → Option String

/-- Default body of `Attributes::get_q_name_type` (sax2.rs:74-76):
`self.get_q_name_index(q_name).and_then(|i| self.get_type(i))`. -/
def Attributes.get_q_name_type (a : Attributes) (q_name : String) : Option String :=
  (a.get_q_name_index q_name).bind (fun i => a.get_type i)

/-- Default body of `Attributes::get_ns_name_type` (sax2.rs:78-81):
`self.get_ns_name_index(uri, local_name).and_then(|i| self.get_type(i))`. -/
def Attributes.get_ns_name_type (a : Attributes) (uri local_name : String) : Option String :=
  (a.get_ns_name_index uri local_name).bind (fun i => a.get_type i)

/-- Default body of `Attributes::get_q_name_value` (sax2.rs:90-93):
`self.get_q_name_index(q_name).and_then(|i| self.get_value(i))`. -/
def Attributes.get_q_name_value (a : Attributes) (q_name : String) : Option String :=
  (a.get_q_name_index q_name).bind (fun i => a.get_value i)

/-- Default body of `Attributes::get_ns_name_value` (sax2.rs:95-98):
`self.get_ns_name_index(uri, local_name).and_then(|i| self.get_value(i))`. -/
def Attributes.get_ns_name_value (a : Attributes) (uri local_name : String) : Option String :=
  (a.get_ns_name_index uri local_name).bind (fun i => a.get_value i)

/-- An implementation of the duplicated `Attributes` trait of lib.rs
(lines 123-172). The only signature difference from sax2.rs is that
`get_local_name` and `get_q_name` return a bare `String`. -/
structure LibAttributes where
  get_q_name_index : String → Option Nat
  get_ns_name_index : String → String → Option Nat
  get_length : Nat
  get_local_name : Nat → String
  get_q_name : Nat → String
  get_type : Nat → Option String
  get_uri : Nat → Option String
  get_value : Nat → Option String

/-- Default body of `Attributes::get_q_name_type` as written in
lib.rs:147-149. -/
def LibAttributes.get_q_name_type (a : LibAttributes) (q_name : String) : Option String :=
  (a.get_q_name_index q_name).bind (fun i => a.get_type i)

/-- Default body of `Attributes::get_ns_name_type` as written in
lib.rs:151-154. -/
def LibAttributes.get_ns_name_type (a : LibAttributes) (uri local_name : String) : Option String :=
  (a.get_ns_name_index uri local_name).bind (fun i => a.get_type i)

/-- Default body of `Attributes::get_q_name_value` as written in
lib.rs:163-166. -/
def LibAttributes.get_q_name_value (a : LibAttributes) (q_name : String) : Option String :=
  (a.get_q_name_index q_name).bind (fun i => a.get_value i)

/-- Default body of `Attributes::get_ns_name_value` as written in
lib.rs:168-171. -/
def LibAttributes.get_ns_name_value (a : LibAttributes) (uri local_name : String) : Option String :=
  (a.get_ns_name_index uri local_name).bind (fun i => a.get_value i)

/-- Modelled from the spec: one record of the AttributeView sequence
(spec section 3): qualified name, optional namespace URI, optional local
name, attribute type, and value. The crate declares the `Attributes` trait
but contains no implementation of the index accessors or name lookups. -/
structure AttrRecord where
  q_name : String
  namespace_uri : Option String
  local_name : Option String
  attr_type : String
  value : String
deriving Repr, DecidableEq

/-- Modelled from the spec: the AttributeView component (spec section 4.3),
an immutable ordered sequence of attribute records. -/
structure AttributeView where
  records : List AttrRecord
deriving Repr, DecidableEq

/-- Index of the first list element satisfying the predicate, if any. -/
def findIdxOpt {α : Type} (p : α → Bool) : List α → Option Nat
  | [] => none
  | x :: xs => if p x then some 0 else (findIdxOpt p xs).map (fun n => n + 1)

/-- Modelled from the spec: `get_length` returns the number of attributes. -/
def AttributeView.get_length (v : AttributeView) : Nat :=
  v.records.length

/-- Modelled from the spec: `get_local_name` by index; out of range yields
`None`, in range yields the stored (optional) local name. -/
def AttributeView.get_local_name (v : AttributeView) (index : Nat) : Option String :=
  (v.records.get? index).bind (fun r => r.local_name)

/-- Modelled from the spec: `get_q_name` by index. -/
def AttributeView.get_q_name (v : AttributeView) (index : Nat) : Option String :=
  (v.records.get? index).map (fun r => r.q_name)

/-- Modelled from the spec: `get_uri` by index; out of range yields `None`,
in range yields the stored (optional) namespace URI. -/
def AttributeView.get_uri (v : AttributeView) (index : Nat) : Option String :=
  (v.records.get? index).bind (fun r => r.namespace_uri)

/-- Modelled from the spec: `get_type` by index. -/
def AttributeView.get_type (v : AttributeView) (index : Nat) : Option String :=
  (v.records.get? index).map (fun r => r.attr_type)

/-- Modelled from the spec: `get_value` by index. -/
def AttributeView.get_value (v : AttributeView) (index : Nat) : Option String :=
  (v.records.get? index).map (fun r => r.value)

/-- Modelled from the spec: `get_q_name_index` looks up the index of an
attribute by qualified name, returning `None` when absent. -/
def AttributeView.get_q_name_index (v : AttributeView) (q_name : String) : Option Nat :=
  findIdxOpt (fun r => r.q_name == q_name) v.records

/-- Modelled from the spec: `get_ns_name_index` looks up the index of an
attribute by namespace-qualified name, returning `None` when absent. -/
def AttributeView.get_ns_name_index (v : AttributeView) (uri local_name : String) : Option Nat :=
  findIdxOpt (fun r => r.namespace_uri == some uri && r.local_name == some local_name) v.records

/-- Convenience value lookup by qualified name on the concrete view,
composed exactly as the sax2.rs:90-93 default body. -/
def AttributeView.get_q_name_value (v : AttributeView) (q_name : String) : Option String :=
  (v.get_q_name_index q_name).bind (fun i => v.get_value i)

/-- Convenience value lookup by namespace name on the concrete view,
composed exactly as the sax2.rs:95-98 default body. -/
def AttributeView.get_ns_name_value (v : AttributeView) (uri local_name : String) : Option String :=
  (v.get_ns_name_index uri local_name).bind (fun i => v.get_value i)

/-- Modelled from the spec: the AttributeView invariant (spec section 3)
that no two records share the same qualified name, required when
qualified-name access is enabled. -/
def AttributeView.qNamesUnique (v : AttributeView) : Prop :=
  v.records.Pairwise (fun a b => a.q_name ≠ b.q_name)

/-- Modelled from the spec: the AttributeView invariant (spec section 3)
that no two records share the same (namespace_uri, local_name) pair,
required when namespace processing is enabled. -/
def AttributeView.nsNamesUnique (v : AttributeView) : Prop :=
  v.records.Pairwise
    (fun a b => ¬(a.namespace_uri = b.namespace_uri ∧ a.local_name = b.local_name))

/-- C1: the claim states that for every `ParseError` the default
`ErrorHandler::fatal_error` returns an error result rather than panicking.
The default body at sax2.rs:148-150 is a `panic!`; at this concrete input
the invocation does not return, refuting the claim as stated. -/
theorem fatal_error_default_panics_counterexample :
    (ErrorHandler.fatal_error
      { message := "boom", line_number := none, column_number := none,
        public_id := none, system_id := none }).outcome.returns = false := by
  rfl

/-- C1 (amended): for every `ParseError`, the default
`ErrorHandler::fatal_error` raises a process panic carrying the formatted
message; it never returns a result to the caller. -/
theorem fatal_error_default_panics (e : ParseError) :
    (ErrorHandler.fatal_error e).outcome
      = HandlerOutcome.panicked ("fatal error: " ++ e.message)
    ∧ (ErrorHandler.fatal_error e).outcome.returns = false := by
  exact ⟨rfl, rfl⟩

/-- C5: for every `ParseError`, the default `ErrorHandler::warning` and the
default `ErrorHandler::error` both report the error to the diagnostic sink
and return `Ok(())`; the default channel never escalates a warning or a
recoverable error into an abort. -/
theorem warning_error_defaults_continue (e : ParseError) :
    (ErrorHandler.warning e).sink = ["warning: " ++ e.message]
    ∧ (ErrorHandler.warning e).outcome = HandlerOutcome.ok
    ∧ (ErrorHandler.error e).sink = ["error: " ++ e.message]
    ∧ (ErrorHandler.error e).outcome = HandlerOutcome.ok := by
  exact ⟨rfl, rfl, rfl, rfl⟩

/-- C9: for every `public_id` and `system_id`, the default
`EntityResolver::resolve_entity` succeeds and returns `None` (use default
resolution); it never produces an error and never substitutes a stream. -/
theorem resolve_entity_default_ok_none (public_id : Option String) (system_id : String) :
    EntityResolver.resolve_entity public_id system_id = Except.ok none := by
  rfl

/-- C2: for every `Attributes` instance and every name key, each convenience
lookup equals the index lookup composed (via `and_then`/`bind`) with the
by-index accessor, and a lookup miss propagates as `None`. -/
theorem attributes_convenience_lookups (a : Attributes) (q u l : String) :
    (a.get_q_name_type q = (a.get_q_name_index q).bind a.get_type)
    ∧ (a.get_ns_name_type u l = (a.get_ns_name_index u l).bind a.get_type)
    ∧ (a.get_q_name_value q = (a.get_q_name_index q).bind a.get_value)
    ∧ (a.get_ns_name_value u l = (a.get_ns_name_index u l).bind a.get_value)
    ∧ (a.get_q_name_index q = none →
        a.get_q_name_type q = none ∧ a.get_q_name_value q = none)
    ∧ (a.get_ns_name_index u l = none →
        a.get_ns_name_type u l = none ∧ a.get_ns_name_value u l = none) := by
  refine ⟨rfl, rfl, rfl, rfl, fun h => ⟨?_, ?_⟩, fun h => ⟨?_, ?_⟩⟩
  · simp [Attributes.get_q_name_type, h]
  · simp [Attributes.get_q_name_value, h]
  · simp [Attributes.get_ns_name_type, h]
  · simp [Attributes.get_ns_name_value, h]

/-- An `Attributes` instance with no attributes, in which every lookup
misses. -/
def attrsEmpty : Attributes :=
  { get_q_name_index := fun _ => none
    get_ns_name_index := fun _ _ => none
    get_length := 0
    get_local_name := fun _ => none
    get_q_name := fun _ => none
    get_type := fun _ => none
    get_uri := fun _ => none
    get_value := fun _ => none }

/-- C2 witness: on a concrete instance whose index lookups miss, the
convenience lookups all propagate the miss as `None`. -/
theorem attributes_convenience_lookups_witness :
    attrsEmpty.get_q_name_type "a:b" = none
    ∧ attrsEmpty.get_q_name_value "a:b" = none
    ∧ attrsEmpty.get_ns_name_type "urn:x" "b" = none
    ∧ attrsEmpty.get_ns_name_value "urn:x" "b" = none :=
  ⟨((attributes_convenience_lookups attrsEmpty "a:b" "urn:x" "b").2.2.2.2.1 rfl).1,
   ((attributes_convenience_lookups attrsEmpty "a:b" "urn:x" "b").2.2.2.2.1 rfl).2,
   ((attributes_convenience_lookups attrsEmpty "a:b" "urn:x" "b").2.2.2.2.2 rfl).1,
   ((attributes_convenience_lookups attrsEmpty "a:b" "urn:x" "b").2.2.2.2.2 rfl).2⟩

/-- C10: the duplicated `Attributes` trait defaults of lib.rs and sax2.rs
are equivalent: for any implementation supplying the same primitive lookups
(`get_q_name_index`, `get_ns_name_index`, `get_type`, `get_value`), the
four derived lookups defined in lib.rs compute the same function as the
correspondingly named defaults in sax2.rs. -/
theorem lib_sax2_attribute_defaults_agree
    (qidx : String → Option Nat) (nsidx : String → String → Option Nat)
    (gt gv : Nat → Option String) (len : Nat)
    (ln qn : Nat → Option String) (lln lqn : Nat → String)
    (gu : Nat → Option String) (q u l : String) :
    LibAttributes.get_q_name_type ⟨qidx, nsidx, len, lln, lqn, gt, gu, gv⟩ q
      = Attributes.get_q_name_type ⟨qidx, nsidx, len, ln, qn, gt, gu, gv⟩ q
    ∧ LibAttributes.get_ns_name_type ⟨qidx, nsidx, len, lln, lqn, gt, gu, gv⟩ u l
      = Attributes.get_ns_name_type ⟨qidx, nsidx, len, ln, qn, gt, gu, gv⟩ u l
    ∧ LibAttributes.get_q_name_value ⟨qidx, nsidx, len, lln, lqn, gt, gu, gv⟩ q
      = Attributes.get_q_name_value ⟨qidx, nsidx, len, ln, qn, gt, gu, gv⟩ q
    ∧ LibAttributes.get_ns_name_value ⟨qidx, nsidx, len, lln, lqn, gt, gu, gv⟩ u l
      = Attributes.get_ns_name_value ⟨qidx, nsidx, len, ln, qn, gt, gu, gv⟩ u l :=
  ⟨rfl, rfl, rfl, rfl⟩

theorem findIdxOpt_eq_some {α : Type} {p : α → Bool} {l : List α} {i : Nat} {a : α}
    (ha : l.get? i = some a) (hpa : p a = true)
    (hprev : ∀ j b, j < i → l.get? j = some b → p b = false) :
    findIdxOpt p l = some i := by
  induction l generalizing i with
  | nil => simp at ha
  | cons x xs ih =>
    cases i with
    | zero =>
      have hx : x = a := by simpa using ha
      subst hx
      simp [findIdxOpt, hpa]
    | succ n =>
      have hx : p x = false := hprev 0 x (Nat.succ_pos n) rfl
      have hrest : findIdxOpt p xs = some n := by
        apply ih (by simpa using ha)
        intro j b hj hb
        exact hprev (j + 1) b (Nat.succ_lt_succ hj) (by simpa using hb)
      simp [findIdxOpt, hx, hrest]

theorem pairwise_get?_of_lt {α : Type} {R : α → α → Prop} {l : List α}
    (h : l.Pairwise R) {i j : Nat} {a b : α}
    (hij : j < i) (hj : l.get? j = some b) (hi : l.get? i = some a) : R b a := by
  obtain ⟨hjl, hjb⟩ := List.get?_eq_some.mp hj
  obtain ⟨hil, hia⟩ := List.get?_eq_some.mp hi
  have hr := (List.pairwise_iff_get.mp h) ⟨j, hjl⟩ ⟨i, hil⟩ (Fin.mk_lt_mk.mpr hij)
  rw [hjb, hia] at hr
  exact hr

/-- C3: every index-based accessor of the attribute view is total over
`0..get_length()`: in range it returns the stored field of the record at
that index, and out of range it returns `None` rather than faulting. -/
theorem attribute_view_index_accessors_total (v : AttributeView) (i : Nat) :
    (∀ h : i < v.get_length,
      v.get_local_name i = (v.records.get ⟨i, h⟩).local_name
      ∧ v.get_q_name i = some (v.records.get ⟨i, h⟩).q_name
      ∧ v.get_uri i = (v.records.get ⟨i, h⟩).namespace_uri
      ∧ v.get_type i = some (v.records.get ⟨i, h⟩).attr_type
      ∧ v.get_value i = some (v.records.get ⟨i, h⟩).value)
    ∧ (v.get_length ≤ i →
      v.get_local_name i = none ∧ v.get_q_name i = none ∧ v.get_uri i = none
      ∧ v.get_type i = none ∧ v.get_value i = none) := by
  constructor
  · intro h
    have hg : v.records.get? i = some (v.records.get ⟨i, h⟩) := List.get?_eq_get h
    refine ⟨?_, ?_, ?_, ?_, ?_⟩
    · unfold AttributeView.get_local_name; rw [hg]; rfl
    · unfold AttributeView.get_q_name; rw [hg]; rfl
    · unfold AttributeView.get_uri; rw [hg]; rfl
    · unfold AttributeView.get_type; rw [hg]; rfl
    · unfold AttributeView.get_value; rw [hg]; rfl
  · intro h
    have hg : v.records.get? i = none := List.get?_len_le h
    refine ⟨?_, ?_, ?_, ?_, ?_⟩
    · unfold AttributeView.get_local_name; rw [hg]; rfl
    · unfold AttributeView.get_q_name; rw [hg]; rfl
    · unfold AttributeView.get_uri; rw [hg]; rfl
    · unfold AttributeView.get_type; rw [hg]; rfl
    · unfold AttributeView.get_value; rw [hg]; rfl

/-- A one-attribute view used to evaluate the accessors concretely. -/
def attrView1 : AttributeView :=
  { records := [{ q_name := "x:b", namespace_uri := some "urn:x",
                  local_name := some "b", attr_type := "CDATA", value := "1" }] }

/-- C3 witness: on a concrete one-attribute view, index 0 returns the
stored fields and index 2 (out of range) returns `None`. -/
theorem attribute_view_index_accessors_total_witness :
    attrView1.get_value 0 = some "1"
    ∧ attrView1.get_q_name 0 = some "x:b"
    ∧ attrView1.get_value 2 = none
    ∧ attrView1.get_local_name 2 = none :=
  ⟨((attribute_view_index_accessors_total attrView1 0).1 (by decide)).2.2.2.2,
   ((attribute_view_index_accessors_total attrView1 0).1 (by decide)).2.1,
   ((attribute_view_index_accessors_total attrView1 2).2 (by decide)).2.2.2.2,
   ((attribute_view_index_accessors_total attrView1 2).2 (by decide)).1⟩

/-- C4: when both access modes are enabled (no two records share a
qualified name, no two share a namespace-qualified name), lookup by
qualified name and lookup by namespace-qualified name return the same
value: for the record at index `i` with qualified name `q`, namespace URI
`u` and local name `l`, both value lookups return the value of that record. -/
theorem attribute_view_lookup_modes_agree
    (v : AttributeView) (i : Nat) (r : AttrRecord) (q u l : String)
    (hq : v.qNamesUnique) (hn : v.nsNamesUnique)
    (hr : v.records.get? i = some r)
    (hqn : r.q_name = q) (huri : r.namespace_uri = some u)
    (hloc : r.local_name = some l) :
    v.get_q_name_value q = v.get_ns_name_value u l
    ∧ v.get_q_name_value q = some r.value := by
  have hidx1 : v.get_q_name_index q = some i := by
    apply findIdxOpt_eq_some hr (by simp [hqn])
    intro j b hj hb
    have hne : b.q_name ≠ q := by
      have hp := pairwise_get?_of_lt hq hj hb hr
      simpa [hqn] using hp
    simp [hne]
  have hidx2 : v.get_ns_name_index u l = some i := by
    apply findIdxOpt_eq_some hr (by simp [huri, hloc])
    intro j b hj hb
    have hcon := pairwise_get?_of_lt hn hj hb hr
    by_cases h1 : b.namespace_uri = some u
    · by_cases h2 : b.local_name = some l
      · exact absurd ⟨h1.trans huri.symm, h2.trans hloc.symm⟩ hcon
      · simp [h2]
    · simp [h1]
  have hv : v.get_value i = some r.value := by
    unfold AttributeView.get_value; rw [hr]; rfl
  constructor
  · simp [AttributeView.get_q_name_value, AttributeView.get_ns_name_value,
      hidx1, hidx2]
  · simp [AttributeView.get_q_name_value, hidx1, hv]

/-- A two-attribute view with distinct qualified names and distinct
namespace-qualified names. -/
def attrView2 : AttributeView :=
  { records := [{ q_name := "x:b", namespace_uri := some "urn:x",
                  local_name := some "b", attr_type := "CDATA", value := "1" },
                { q_name := "x:c", namespace_uri := some "urn:x",
                  local_name := some "c", attr_type := "CDATA", value := "2" }] }

/-- C4 witness: on a concrete two-attribute view satisfying both
uniqueness invariants, the qualified-name lookup and the namespace-name
lookup of the second record agree and return its value. -/
theorem attribute_view_lookup_modes_agree_witness :
    attrView2.get_q_name_value "x:c" = attrView2.get_ns_name_value "urn:x" "c"
    ∧ attrView2.get_q_name_value "x:c" = some "2" :=
  attribute_view_lookup_modes_agree attrView2 1
    { q_name := "x:c", namespace_uri := some "urn:x",
      local_name := some "c", attr_type := "CDATA", value := "2" }
    "x:c" "urn:x" "c"
    (by simp [AttributeView.qNamesUnique, attrView2])
    (by simp [AttributeView.nsNamesUnique, attrView2])
    (by rfl) (by rfl) (by rfl) (by rfl)

/-- Modelled from the spec: the configuration error taxonomy (spec
section 7). The crate declares `XmlReader::set_feature` and
`XmlReader::set_property_str` (sax2.rs:581, 594) without bodies. -/
inductive ConfigErrorKind where
  | UnsupportedConfig
  | ConfigLocked
deriving Repr, DecidableEq

/-- Modelled from the spec: the mutability phase tag of a configuration
entry (spec section 3). -/
inductive Phase where
  | beforeParseOnly
  | anytime
  | readOnly
deriving Repr, DecidableEq

/-- Modelled from the spec: the parse-session states `Idle → Parsing →
Done` (spec section 3). -/
inductive SessionState where
  | Idle
  | Parsing
  | Done
deriving Repr, DecidableEq

/-- Modelled from the spec: the configuration store, a mapping from
feature/property URI to a typed value (boolean for features, string for
properties) plus a mutability phase tag. -/
structure ConfigStore where
  features : List (String × Phase × Bool)
  properties : List (String × Phase × String)
deriving Repr, DecidableEq

/-- Modelled from the spec: read a feature entry (phase tag and value). -/
def ConfigStore.get_feature (s : ConfigStore) (name : String) : Option (Phase × Bool) :=
  s.features.lookup name

/-- Modelled from the spec: read a property entry (phase tag and value). -/
def ConfigStore.get_property_str (s : ConfigStore) (name : String) : Option (Phase × String) :=
  s.properties.lookup name

/-- Modelled from the spec: whether a phase tag permits mutation in the
given session state (a `before-parse-only` entry is mutable only while
`Idle`; a `read-only` entry never is). -/
def Phase.allows : Phase → SessionState → Bool
  | Phase.anytime, _ => true
  | Phase.beforeParseOnly, SessionState.Idle => true
  | Phase.beforeParseOnly, _ => false
  | Phase.readOnly, _ => false

/-- Replace the value of the named entry, keeping its phase tag. -/
def setEntry {β : Type} (l : List (String × Phase × β)) (name : String) (v : β) :
    List (String × Phase × β) :=
  l.map (fun e => if e.1 == name then (e.1, e.2.1, v) else e)

/-- Modelled from the spec: `set_feature` fails with `UnsupportedConfig`
when the URI is unrecognized and with `ConfigLocked` when the phase tag
forbids mutation in the current session state; on failure the store is
returned unchanged. -/
def ConfigStore.set_feature (s : ConfigStore) (st : SessionState) (name : String)
    (value : Bool) : ConfigStore × Option ConfigErrorKind :=
  match s.features.lookup name with
  | none => (s, some ConfigErrorKind.UnsupportedConfig)
  | some (ph, _) =>
    if ph.allows st then
      ({ s with features := setEntry s.features name value }, none)
    else (s, some ConfigErrorKind.ConfigLocked)

/-- Modelled from the spec: `set_property_str`, with the same failure
behaviour as `set_feature`. -/
def ConfigStore.set_property_str (s : ConfigStore) (st : SessionState) (name : String)
    (value : String) : ConfigStore × Option ConfigErrorKind :=
  match s.properties.lookup name with
  | none => (s, some ConfigErrorKind.UnsupportedConfig)
  | some (ph, _) =>
    if ph.allows st then
      ({ s with properties := setEntry s.properties name value }, none)
    else (s, some ConfigErrorKind.ConfigLocked)

/-- C6: for every configuration store, session state and URI, `set_feature`
and `set_property_str` fail with `UnsupportedConfig` when the URI is
unrecognized and with `ConfigLocked` when the phase tag forbids mutation in
the current session state; in both failure cases the store is returned
unchanged, so a subsequent get returns the pre-call value. -/
theorem set_config_failures_leave_store_unchanged
    (s : ConfigStore) (st : SessionState) (name : String)
    (bvalue : Bool) (svalue : String) :
    (s.get_feature name = none →
      s.set_feature st name bvalue = (s, some ConfigErrorKind.UnsupportedConfig))
    ∧ (∀ ph b, s.get_feature name = some (ph, b) → ph.allows st = false →
      s.set_feature st name bvalue = (s, some ConfigErrorKind.ConfigLocked))
    ∧ (s.get_property_str name = none →
      s.set_property_str st name svalue = (s, some ConfigErrorKind.UnsupportedConfig))
    ∧ (∀ ph p, s.get_property_str name = some (ph, p) → ph.allows st = false →
      s.set_property_str st name svalue = (s, some ConfigErrorKind.ConfigLocked)) := by
  refine ⟨?_, ?_, ?_, ?_⟩
  · intro h
    unfold ConfigStore.get_feature at h
    unfold ConfigStore.set_feature
    rw [h]
  · intro ph b h hall
    unfold ConfigStore.get_feature at h
    unfold ConfigStore.set_feature
    rw [h]
    simp [hall]
  · intro h
    unfold ConfigStore.get_property_str at h
    unfold ConfigStore.set_property_str
    rw [h]
  · intro ph p h hall
    unfold ConfigStore.get_property_str at h
    unfold ConfigStore.set_property_str
    rw [h]
    simp [hall]

/-- The default configuration store: the two reserved feature URIs with
their default values (`namespaces=true`, `namespace-prefixes=false`),
mutable before parsing only, plus one read-only property. -/
def defaultConfig : ConfigStore :=
  { features := [("http://xml.org/sax/features/namespaces",
                  (Phase.beforeParseOnly, true)),
                 ("http://xml.org/sax/features/namespace-prefixes",
                  (Phase.beforeParseOnly, false))],
    properties := [("urn:example:frozen", (Phase.readOnly, "v0"))] }

/-- C6 witness: on the default store, setting an unknown feature URI fails
with `UnsupportedConfig`, setting a reserved feature while `Parsing` fails
with `ConfigLocked`, setting an unknown property URI fails with
`UnsupportedConfig`, and setting a read-only property fails with
`ConfigLocked`; the store is returned unchanged each time. -/
theorem set_config_failures_witness :
    defaultConfig.set_feature SessionState.Idle "unknown-uri" true
      = (defaultConfig, some ConfigErrorKind.UnsupportedConfig)
    ∧ defaultConfig.set_feature SessionState.Parsing
        "http://xml.org/sax/features/namespaces" false
      = (defaultConfig, some ConfigErrorKind.ConfigLocked)
    ∧ defaultConfig.set_property_str SessionState.Idle "unknown-uri" "x"
      = (defaultConfig, some ConfigErrorKind.UnsupportedConfig)
    ∧ defaultConfig.set_property_str SessionState.Idle "urn:example:frozen" "x"
      = (defaultConfig, some ConfigErrorKind.ConfigLocked) :=
  ⟨(set_config_failures_leave_store_unchanged defaultConfig SessionState.Idle
      "unknown-uri" true "x").1 (by decide),
   (set_config_failures_leave_store_unchanged defaultConfig SessionState.Parsing
      "http://xml.org/sax/features/namespaces" false "x").2.1
      Phase.beforeParseOnly true (by decide) (by decide),
   (set_config_failures_leave_store_unchanged defaultConfig SessionState.Idle
      "unknown-uri" true "x").2.2.1 (by decide),
   (set_config_failures_leave_store_unchanged defaultConfig SessionState.Idle
      "urn:example:frozen" true "x").2.2.2
      Phase.readOnly "v0" (by decide) (by decide)⟩

/-- Modelled from the spec: the handler registry, four pluggable observer
slots (spec section 2). The concrete handlers are opaque here, identified
by number. -/
structure HandlerRegistry where
  content_handler : Option Nat
  dtd_handler : Option Nat
  entity_resolver : Option Nat
  error_handler : Option Nat
deriving Repr, DecidableEq

/-- Modelled from the spec: one structural signal emitted by the opaque
Tokenizer Engine that drives the protocol (spec sections 1 and 2). -/
inductive TokSignal where
  | elemStart (uri local_name q_name : String) (attributes : AttributeView)
  | elemEnd (uri local_name q_name : String)
  | text (content : String)
  | white (content : String)
  | instruction (target data : String)
  | fatalErr (message : String)
deriving Repr, DecidableEq

/-- Modelled from the spec: an observer callback event of the dispatch
boundary (spec section 6). -/
inductive Event where
  | setDocumentLocator
  | startDocument
  | endDocument
  | startElement (uri local_name q_name : String) (attributes : AttributeView)
  | endElement (uri local_name q_name : String)
  | characters (content : String)
  | ignorableWhitespace (content : String)
  | processingInstruction (target data : String)
deriving Repr, DecidableEq

/-- Modelled from the spec: dispatch of the tokenizer signals between the
document boundary events. Stops at the first fatal signal (no further
structural events are dispatched); returns the dispatched content events
and the fatal message, if any. -/
def dispatchSignals : List TokSignal → List Event × Option String
  | [] => ([], none)
  | TokSignal.fatalErr m :: _ => ([], some m)
  | TokSignal.elemStart u l q a :: rest =>
    let d := dispatchSignals rest
    (Event.startElement u l q a :: d.1, d.2)
  | TokSignal.elemEnd u l q :: rest =>
    let d := dispatchSignals rest
    (Event.endElement u l q :: d.1, d.2)
  | TokSignal.text c :: rest =>
    let d := dispatchSignals rest
    (Event.characters c :: d.1, d.2)
  | TokSignal.white c :: rest =>
    let d := dispatchSignals rest
    (Event.ignorableWhitespace c :: d.1, d.2)
  | TokSignal.instruction t dt :: rest =>
    let d := dispatchSignals rest
    (Event.processingInstruction t dt :: d.1, d.2)

/-- Modelled from the spec: the full event trace of one document
traversal: `set_document_locator`, then `start_document`, then the
dispatched content events, then `end_document` — the closing
`end_document` is emitted also when the traversal ends via a fatal
error. -/
def traversalEvents (input : List TokSignal) : List Event :=
  Event.setDocumentLocator :: Event.startDocument ::
    ((dispatchSignals input).1 ++ [Event.endDocument])

/-- The result of one `parse` call. -/
inductive ParseCallResult where
  | ok
  | sessionBusy
  | fatal (message : String)
deriving Repr, DecidableEq

/-- Modelled from the spec: the parse session (spec sections 3 and 4.1):
the session state together with the borrowed handler registry and
configuration store. -/
structure XmlReaderSession where
  state : SessionState
  handlers : HandlerRegistry
  config : ConfigStore
deriving Repr, DecidableEq

/-- Modelled from the spec: `XmlReader::parse` (declared without a body at
sax2.rs:526). Fails with `SessionBusy` while already `Parsing`, leaving
the session untouched; otherwise runs the traversal, dispatching
`traversalEvents`, ending in `Done`, and surfacing a fatal error as the
error result of the call. -/
def XmlReader.parse (s : XmlReaderSession) (input : List TokSignal) :
    XmlReaderSession × List Event × ParseCallResult :=
  match s.state with
  | SessionState.Parsing => (s, [], ParseCallResult.sessionBusy)
  | _ =>
    ({ s with state := SessionState.Done }, traversalEvents input,
      match (dispatchSignals input).2 with
      | some m => ParseCallResult.fatal m
      | none => ParseCallResult.ok)

/-- C7: calling `parse` on a session already in the `Parsing` state
(in particular from inside an active observer callback on that session)
fails with `SessionBusy` and leaves the session state, handler registry
and configuration store unchanged. -/
theorem parse_while_parsing_session_busy
    (s : XmlReaderSession) (input : List TokSignal)
    (h : s.state = SessionState.Parsing) :
    XmlReader.parse s input = (s, [], ParseCallResult.sessionBusy)
    ∧ (XmlReader.parse s input).1.state = s.state
    ∧ (XmlReader.parse s input).1.handlers = s.handlers
    ∧ (XmlReader.parse s input).1.config = s.config := by
  have he : XmlReader.parse s input = (s, [], ParseCallResult.sessionBusy) := by
    unfold XmlReader.parse
    rw [h]
  exact ⟨he, by rw [he], by rw [he], by rw [he]⟩

/-- A session captured mid-traversal: state `Parsing`, with registered
handlers and the default configuration. -/
def busySession : XmlReaderSession :=
  { state := SessionState.Parsing,
    handlers := { content_handler := some 0, dtd_handler := none,
                  entity_resolver := none, error_handler := some 1 },
    config := defaultConfig }

/-- C7 witness: a concrete mid-traversal session rejects a reentrant
`parse` call with `SessionBusy`, unchanged. -/
theorem parse_while_parsing_session_busy_witness :
    XmlReader.parse busySession [TokSignal.text "x"]
      = (busySession, [], ParseCallResult.sessionBusy) :=
  (parse_while_parsing_session_busy busySession [TokSignal.text "x"] rfl).1

theorem dispatchSignals_no_document_events (input : List TokSignal) :
    ∀ ev ∈ (dispatchSignals input).1,
      ev ≠ Event.startDocument ∧ ev ≠ Event.endDocument := by
  induction input with
  | nil => intro ev h; simp [dispatchSignals] at h
  | cons sig rest ih =>
    intro ev h
    cases sig with
    | fatalErr m => simp [dispatchSignals] at h
    | elemStart u l q a =>
      simp only [dispatchSignals, List.mem_cons] at h
      rcases h with h | h
      · subst h; exact ⟨fun hc => Event.noConfusion hc, fun hc => Event.noConfusion hc⟩
      · exact ih ev h
    | elemEnd u l q =>
      simp only [dispatchSignals, List.mem_cons] at h
      rcases h with h | h
      · subst h; exact ⟨fun hc => Event.noConfusion hc, fun hc => Event.noConfusion hc⟩
      · exact ih ev h
    | text c =>
      simp only [dispatchSignals, List.mem_cons] at h
      rcases h with h | h
      · subst h; exact ⟨fun hc => Event.noConfusion hc, fun hc => Event.noConfusion hc⟩
      · exact ih ev h
    | white c =>
      simp only [dispatchSignals, List.mem_cons] at h
      rcases h with h | h
      · subst h; exact ⟨fun hc => Event.noConfusion hc, fun hc => Event.noConfusion hc⟩
      · exact ih ev h
    | instruction t dt =>
      simp only [dispatchSignals, List.mem_cons] at h
      rcases h with h | h
      · subst h; exact ⟨fun hc => Event.noConfusion hc, fun hc => Event.noConfusion hc⟩
      · exact ih ev h

/-- C8: for every traversal (ending normally or via a fatal error), the
event trace starts with `start_document` preceded only by
`set_document_locator`, and `end_document` occurs exactly once, last:
the trace decomposes as locator, `start_document`, a body free of both
document-boundary events, then the single final `end_document`; and
`parse` on an idle session dispatches exactly this trace. -/
theorem traversal_document_boundaries (input : List TokSignal)
    (hreg : HandlerRegistry) (c : ConfigStore) :
    ∃ body : List Event,
      traversalEvents input
        = Event.setDocumentLocator :: Event.startDocument ::
            (body ++ [Event.endDocument])
      ∧ (∀ ev ∈ body, ev ≠ Event.startDocument ∧ ev ≠ Event.endDocument)
      ∧ (XmlReader.parse
          { state := SessionState.Idle, handlers := hreg, config := c }
          input).2.1 = traversalEvents input :=
  ⟨(dispatchSignals input).1, rfl,
   fun ev h => dispatchSignals_no_document_events input ev h, rfl⟩

/-- C8 witness: the decomposition instantiated on a concrete traversal
that ends via a fatal error after one character chunk. -/
theorem traversal_document_boundaries_witness :
    ∃ body : List Event,
      traversalEvents [TokSignal.text "hi", TokSignal.fatalErr "bad"]
        = Event.setDocumentLocator :: Event.startDocument ::
            (body ++ [Event.endDocument])
      ∧ (∀ ev ∈ body, ev ≠ Event.startDocument ∧ ev ≠ Event.endDocument)
      ∧ (XmlReader.parse
          { state := SessionState.Idle,
            handlers := { content_handler := none, dtd_handler := none,
                          entity_resolver := none, error_handler := none },
            config := defaultConfig }
          [TokSignal.text "hi", TokSignal.fatalErr "bad"]).2.1
        = traversalEvents [TokSignal.text "hi", TokSignal.fatalErr "bad"] :=
  traversal_document_boundaries [TokSignal.text "hi", TokSignal.fatalErr "bad"]
    { content_handler := none, dtd_handler := none,
      entity_resolver := none, error_handler := none }
    defaultConfig

end Sax2
